import Mathlib

/-!
Shallow embedding of the smart-home controller in src/main.js: the device
state machines, the undoable command layer, the authorization and audit
wrappers, the invoker, the heating strategy selector and the message router.

Mutable JS objects are modelled by explicit state passing.  Object
references captured by commands are modelled as indices into the registry's
device array, since commands alias the registry-held device objects.  A JS
method call that would throw a TypeError (calling a method the receiver
does not define, or dereferencing `undefined`) is modelled as `none`.  DOM
rendering and timestamps are out of scope; the two log sinks are modelled
as append-only lists of text lines, and observer notifications are modelled
as explicit event lists recording which observer was called with which
device state.
-/

inductive DeviceKind where
  | light
  | door
  | tempSensor
  | adapter
deriving DecidableEq

/-- One device (src/main.js:42-106, 373-390).  `isLocked` is `some _`
exactly on doors and `temperature` is `some _` exactly on temperature
sensors; `none` models the JS field being `undefined` on the other
variants.  Observers are identified by numeric ids. -/
structure Device where
  kind : DeviceKind
  name : String
  isOn : Bool
  isLocked : Option Bool
  temperature : Option Int
  observers : List Nat
deriving DecidableEq

/-- `new Light(name)` (src/main.js:58-61). -/
def mkLight (name : String) : Device :=
  { kind := .light, name := name, isOn := false, isLocked := none,
    temperature := none, observers := [] }

/-- `new Door(name)` (src/main.js:76-80): `isLocked` defaults to true. -/
def mkDoor (name : String) : Device :=
  { kind := .door, name := name, isOn := false, isLocked := some true,
    temperature := none, observers := [] }

/-- `new TemperatureSensor(name)` (src/main.js:95-99): temperature defaults
to 20. -/
def mkTemperatureSensor (name : String) : Device :=
  { kind := .tempSensor, name := name, isOn := false, isLocked := none,
    temperature := some 20, observers := [] }

/-- `new DeviceAdapter(oldDevice)` (src/main.js:373-377); the adapter takes
the wrapped legacy device's name. -/
def mkDeviceAdapter (name : String) : Device :=
  { kind := .adapter, name := name, isOn := false, isLocked := none,
    temperature := none, observers := [] }

/-- `addObserver` (src/main.js:49-51). -/
def Device.addObserver (d : Device) (o : Nat) : Device :=
  { d with observers := d.observers ++ [o] }

/-- `notifyObservers` (src/main.js:53-55): calls `observer.update(this)`
once per subscribed observer, in subscription order.  Each event records
the observer called and the device state it was shown. -/
def Device.notifyObservers (d : Device) : List (Nat × Device) :=
  d.observers.map (fun o => (o, d))

/-- Outcome of one transition method: the device after the mutation, the
notification events fired (in order), and the returned result string. -/
abbrev TransitionResult := Device × List (Nat × Device) × String

/-- `turnOn`: defined on `Light` (src/main.js:63-67) and on `DeviceAdapter`
(src/main.js:379-383), absent on the other variants (calling it there
throws, hence `none`).  Both mutate `isOn`, then notify, then return. -/
def Device.turnOn (d : Device) : Option TransitionResult :=
  match d.kind with
  | .light =>
      let d2 := { d with isOn := true }
      some (d2, d2.notifyObservers, "Light " ++ d.name ++ " turned on")
  | .adapter =>
      let d2 := { d with isOn := true }
      some (d2, d2.notifyObservers, "Old device " ++ d.name ++ " activated")
  | _ => none

/-- `turnOff`: defined on `Light` (src/main.js:69-73) and on `DeviceAdapter`
(src/main.js:385-389). -/
def Device.turnOff (d : Device) : Option TransitionResult :=
  match d.kind with
  | .light =>
      let d2 := { d with isOn := false }
      some (d2, d2.notifyObservers, "Light " ++ d.name ++ " turned off")
  | .adapter =>
      let d2 := { d with isOn := false }
      some (d2, d2.notifyObservers, "Old device " ++ d.name ++ " deactivated")
  | _ => none

/-- `lock` (src/main.js:82-86), defined on `Door` only. -/
def Device.lock (d : Device) : Option TransitionResult :=
  match d.kind with
  | .door =>
      let d2 := { d with isLocked := some true }
      some (d2, d2.notifyObservers, "Door " ++ d.name ++ " locked")
  | _ => none

/-- `unlock` (src/main.js:88-92), defined on `Door` only. -/
def Device.unlock (d : Device) : Option TransitionResult :=
  match d.kind with
  | .door =>
      let d2 := { d with isLocked := some false }
      some (d2, d2.notifyObservers, "Door " ++ d.name ++ " unlocked")
  | _ => none

/-- `setTemperature` (src/main.js:101-105), defined on `TemperatureSensor`
only. -/
def Device.setTemperature (d : Device) (temp : Int) : Option TransitionResult :=
  match d.kind with
  | .tempSensor =>
      let d2 := { d with temperature := some temp }
      some (d2, d2.notifyObservers,
        "Temperature sensor " ++ d.name ++ " updated to " ++ toString temp ++ "C")
  | _ => none

/-- `new User(name)` (src/main.js:311-314). -/
structure User where
  name : String
deriving DecidableEq

/-- `HouseChatRoom` (src/main.js:327-357). -/
structure HouseChatRoom where
  users : List User
deriving DecidableEq

/-- `HouseChatRoom.addUser` (src/main.js:332-334). -/
def HouseChatRoom.addUser (room : HouseChatRoom) (u : User) : HouseChatRoom :=
  { room with users := room.users ++ [u] }

/-- `displayMessage` (src/main.js:353-356): the chat-log line recorded for
a message, minus the DOM rendering.  Argument order follows the source:
`displayMessage(from, message, to)`. -/
def HouseChatRoom.displayMessage (fromName msg toName : String) : String :=
  "[" ++ fromName ++ " -> " ++ toName ++ "]: " ++ msg

/-- `sendMessage` (src/main.js:336-351).  Returns the room after the call
(its `users` list is never written by the method), the names delivered to
via `receiveMessage`, in order, and the chat-log lines recorded, in order.
A delivery to user `u` records the line
`displayMessage from.name message u.name`, because `User.receiveMessage`
(src/main.js:321-324) forwards to `displayMessage` with the receiver's own
name. -/
def HouseChatRoom.sendMessage (room : HouseChatRoom) (fromUser : User)
    (toName msg : String) : HouseChatRoom × List String × List String :=
  if toName == "all" then
    let recipients := room.users.filter (fun u => u.name != fromUser.name)
    (room, recipients.map User.name,
      recipients.map (fun u => displayMessage fromUser.name msg u.name) ++
        [displayMessage fromUser.name msg "all"])
  else
    match room.users.find? (fun u => u.name == toName) with
    | some recipient =>
        (room, [recipient.name],
          [displayMessage fromUser.name msg recipient.name,
           displayMessage fromUser.name msg toName])
    | none => (room, [], [])

/-- The `House` registry (src/main.js:1-40).  The singleton access pattern
is modelled by passing the one house explicitly (spec section 9 asks for
exactly this dependency-injected reading).  `systemLogLines` models the
append-only system-log sink of `systemLog` (src/main.js:392-401), minus
DOM and timestamps. -/
structure House where
  devices : List Device
  users : List User
  temperature : Int
  chatRoom : HouseChatRoom
  systemLogLines : List String
deriving DecidableEq

/-- `new House()` on first construction (src/main.js:4-15). -/
def House.new : House :=
  { devices := [], users := [], temperature := 20,
    chatRoom := { users := [] }, systemLogLines := [] }

/-- `addDevice` (src/main.js:24-26): unconditional push. -/
def House.addDevice (h : House) (device : Device) : House :=
  { h with devices := h.devices ++ [device] }

/-- `addUser` (src/main.js:28-31): unconditional push, mirrored into the
chat room. -/
def House.addUser (h : House) (user : User) : House :=
  { h with users := h.users ++ [user], chatRoom := h.chatRoom.addUser user }

/-- `findDevice` (src/main.js:33-35): `Array.prototype.find`, i.e. the
first match in insertion order. -/
def House.findDevice (h : House) (name : String) : Option Device :=
  h.devices.find? (fun device => device.name == name)

/-- `findUser` (src/main.js:37-39). -/
def House.findUser (h : House) (name : String) : Option User :=
  h.users.find? (fun user => user.name == name)

/-- `systemLog` (src/main.js:392-401): appends one line to the system-log
sink. -/
def House.systemLog (h : House) (msg : String) : House :=
  { h with systemLogLines := h.systemLogLines ++ [msg] }

/-- The uniqueness property the spec asserts of the registry (spec section
3): device names unique among devices, user names unique among users. -/
def House.namesUnique (h : House) : Prop :=
  (h.devices.map Device.name).Nodup ∧ (h.users.map User.name).Nodup

/-- The command objects (src/main.js:108-171, 194-223).  A device reference
captured at construction (`this.light`, `this.door`) is an index into the
registry's device array.  `SecurityProxy` (src/main.js:194-209) and
`LogCommand` (src/main.js:211-223) wrap an inner command. -/
inductive Command where
  | LightOnCommand (light : Nat)
  | LightOffCommand (light : Nat)
  | DoorLockCommand (door : Nat)
  | DoorUnlockCommand (door : Nat)
  | SecurityProxy (command : Command)
  | LogCommand (command : Command)
deriving DecidableEq

/-- `this.command.constructor.name` as used by `LogCommand`
(src/main.js:218). -/
def Command.constructorName : Command → String
  | .LightOnCommand _ => "LightOnCommand"
  | .LightOffCommand _ => "LightOffCommand"
  | .DoorLockCommand _ => "DoorLockCommand"
  | .DoorUnlockCommand _ => "DoorUnlockCommand"
  | .SecurityProxy _ => "SecurityProxy"
  | .LogCommand _ => "LogCommand"

/-- `this.command instanceof LightOffCommand` (src/main.js:201): true only
for a direct `LightOffCommand`, not for a wrapper around one. -/
def Command.isLightOffCommand : Command → Bool
  | .LightOffCommand _ => true
  | _ => false

/-- JS falsiness of `device.isLocked` under `!` (src/main.js:203):
`undefined` and `false` are falsy, `true` is not. -/
def jsFalsy : Option Bool → Bool
  | none => true
  | some b => !b

/-- Run a device method on the device at index `i`, writing the mutated
device back; `none` when the index is out of range (the captured JS
reference would be `undefined`) or the method does not exist on that
device variant (TypeError).  The fired observer events are not fed back
into the house: the only observer object in this program, `HeatingSystem`,
never reads or writes registry state from `update` except to log on
temperature-sensor notifications, and no command targets a sensor. -/
def House.runDeviceMethod (h : House) (i : Nat)
    (method : Device → Option TransitionResult) : Option (House × String) :=
  match h.devices[i]? with
  | some d =>
      match method d with
      | some (d2, _, r) => some ({ h with devices := h.devices.set i d2 }, r)
      | none => none
  | none => none

/-- `execute()` of each command variant (src/main.js:119-121, 134-136,
149-151, 164-166, 200-208, 216-222).  `SecurityProxy.execute` gates a
direct `LightOffCommand` on the registry's "Front Door" device;
`LogCommand.execute` logs before and after delegating. -/
def Command.executeRun : Command → House → Option (House × String)
  | .LightOnCommand i, h => h.runDeviceMethod i Device.turnOn
  | .LightOffCommand i, h => h.runDeviceMethod i Device.turnOff
  | .DoorLockCommand i, h => h.runDeviceMethod i Device.lock
  | .DoorUnlockCommand i, h => h.runDeviceMethod i Device.unlock
  | .SecurityProxy inner, h =>
      if inner.isLightOffCommand then
        match h.findDevice "Front Door" with
        | some frontDoor =>
            if jsFalsy frontDoor.isLocked then
              some (h, "Security Warning: Cannot turn off lights while front door is unlocked")
            else
              inner.executeRun h
        | none => inner.executeRun h
      else
        inner.executeRun h
  | .LogCommand inner, h =>
      let h1 := h.systemLog ("Executing command: " ++ inner.constructorName)
      match inner.executeRun h1 with
      | some (h2, r) => some (h2.systemLog ("Command result: " ++ r), r)
      | none => none

/-- `undo()` of each command variant (src/main.js:123-125, 138-140,
153-155, 168-170).  `SecurityProxy` and `LogCommand` define no `undo`
method and do not extend `Command`, so `command.undo()` on them throws a
TypeError, modelled as `none`. -/
def Command.undoRun : Command → House → Option (House × String)
  | .LightOnCommand i, h => h.runDeviceMethod i Device.turnOff
  | .LightOffCommand i, h => h.runDeviceMethod i Device.turnOn
  | .DoorLockCommand i, h => h.runDeviceMethod i Device.unlock
  | .DoorUnlockCommand i, h => h.runDeviceMethod i Device.lock
  | .SecurityProxy _, _ => none
  | .LogCommand _, _ => none

/-- `RemoteControl` (src/main.js:173-192). -/
structure RemoteControl where
  commands : List Command
  history : List Command
deriving DecidableEq

/-- `new RemoteControl()` (src/main.js:174-177). -/
def RemoteControl.new : RemoteControl := { commands := [], history := [] }

/-- `pressButton` (src/main.js:179-183): execute first, then push onto
history, then return the result.  When `execute` throws (`none`) the push
is never reached. -/
def RemoteControl.pressButton (rc : RemoteControl) (h : House) (c : Command) :
    RemoteControl × House × Option String :=
  match c.executeRun h with
  | some (h2, r) => ({ rc with history := rc.history ++ [c] }, h2, some r)
  | none => (rc, h, none)

/-- `undo` (src/main.js:185-191): pop the most recent command and call its
`undo`; on an empty history return the fixed message.  When the popped
command's `undo` throws, the pop has already happened. -/
def RemoteControl.undo (rc : RemoteControl) (h : House) :
    RemoteControl × House × Option String :=
  match rc.history.getLast? with
  | some c =>
      match c.undoRun h with
      | some (h2, r) => ({ rc with history := rc.history.dropLast }, h2, some r)
      | none => ({ rc with history := rc.history.dropLast }, h, none)
  | none => (rc, h, some "No commands to undo")

/-- A sequence of `pressButton` calls, threading the state. -/
def RemoteControl.pressAll (rc : RemoteControl) (h : House) :
    List Command → RemoteControl × House
  | [] => (rc, h)
  | c :: cs =>
      let s := rc.pressButton h c
      RemoteControl.pressAll s.1 s.2.1 cs

/-- Holds when every `execute` in the run of `cs` from `h` returns
normally. -/
def execsOk (h : House) : List Command → Bool
  | [] => true
  | c :: cs =>
      match c.executeRun h with
      | some (h2, _) => execsOk h2 cs
      | none => false

/-- The house after running the `execute` of each command in order
(unchanged on a throw; only the normal case is used under `execsOk`). -/
def execHouse (h : House) : List Command → House
  | [] => h
  | c :: cs =>
      match c.executeRun h with
      | some (h2, _) => execHouse h2 cs
      | none => h

/-- The house after one `undo()` call of `c` (unchanged when that `undo`
throws, since the throw happens before any mutation). -/
def undoStepHouse (h : House) (c : Command) : House :=
  match c.undoRun h with
  | some (h2, _) => h2
  | none => h

/-- `n` successive `undo()` calls on the remote, also returning the
commands popped, in pop order. -/
def RemoteControl.undoTimes (rc : RemoteControl) (h : House) :
    Nat → RemoteControl × House × List Command
  | 0 => (rc, h, [])
  | n + 1 =>
      let popped := rc.history.getLast?.toList
      let s := rc.undo h
      let t := RemoteControl.undoTimes s.1 s.2.1 n
      (t.1, t.2.1, popped ++ t.2.2)

/-- The heating strategies (src/main.js:270-284). -/
inductive HeatingStrategy where
  | EcoMode
  | ComfortMode
deriving DecidableEq

/-- `heat()` of each strategy (src/main.js:275-277, 281-283). -/
def HeatingStrategy.heat : HeatingStrategy → String
  | .EcoMode => "Eco mode: Heating to 18C"
  | .ComfortMode => "Comfort mode: Heating to 22C"

/-- `HeatingSystem` (src/main.js:286-309). -/
structure HeatingSystem where
  strategy : HeatingStrategy
deriving DecidableEq

/-- `new HeatingSystem()` (src/main.js:287-289). -/
def HeatingSystem.new : HeatingSystem := { strategy := .EcoMode }

/-- `setStrategy` (src/main.js:291-293). -/
def HeatingSystem.setStrategy (hs : HeatingSystem) (s : HeatingStrategy) :
    HeatingSystem :=
  { hs with strategy := s }

/-- `heat` (src/main.js:295-297). -/
def HeatingSystem.heat (hs : HeatingSystem) : String :=
  hs.strategy.heat

/-- `update` (src/main.js:299-308).  Returns the selector after the
notification and the system-log lines it emitted.  A notification from a
non-sensor device is ignored entirely.  On a sensor, `temperature < 18`
selects ComfortMode and logs exactly once; otherwise EcoMode, silently.
(`temperature = none` models the in-practice-unreachable `undefined < 18`,
which is false in JS, hence the silent Eco branch.) -/
def HeatingSystem.update (hs : HeatingSystem) (device : Device) :
    HeatingSystem × List String :=
  if device.kind == .tempSensor then
    match device.temperature with
    | some t =>
        if t < 18 then
          let hs2 := hs.setStrategy .ComfortMode
          (hs2, ["Heating system activated: " ++ hs2.heat])
        else
          (hs.setStrategy .EcoMode, [])
    | none => (hs.setStrategy .EcoMode, [])
  else
    (hs, [])

/-- Forward-then-inverse composite on the device state, used to state the
round-trip property of spec section 8: run `turnOn`, then `turnOff` on the
resulting device. -/
def afterOnOff (d : Device) : Option Device :=
  (d.turnOn.map Prod.fst).bind (fun x => x.turnOff.map Prod.fst)

/-- Composite `turnOff` then `turnOn`. -/
def afterOffOn (d : Device) : Option Device :=
  (d.turnOff.map Prod.fst).bind (fun x => x.turnOn.map Prod.fst)

/-- Composite `lock` then `unlock`. -/
def afterLockUnlock (d : Device) : Option Device :=
  (d.lock.map Prod.fst).bind (fun x => x.unlock.map Prod.fst)

/-- Composite `unlock` then `lock`. -/
def afterUnlockLock (d : Device) : Option Device :=
  (d.unlock.map Prod.fst).bind (fun x => x.lock.map Prod.fst)

/-- The device state after a transition call (none when the call threw). -/
def transPost (tr : Option TransitionResult) : Option Device :=
  tr.map Prod.fst

/-- The notification events fired by a transition call. -/
def transEvents (tr : Option TransitionResult) : List (Nat × Device) :=
  (tr.map (fun x => x.2.1)).getD []

theorem notifyObservers_spec (d : Device) :
    d.notifyObservers.map Prod.fst = d.observers ∧ ∀ p ∈ d.notifyObservers, p.2 = d := by
  refine ⟨by simp [Device.notifyObservers, List.map_map, Function.comp_def], ?_⟩
  intro p hp
  simp only [Device.notifyObservers, List.mem_map] at hp
  obtain ⟨o, _, rfl⟩ := hp
  rfl

theorem turnOn_light (d : Device) (hk : d.kind = .light) :
    d.turnOn = some ({ d with isOn := true },
      ({ d with isOn := true } : Device).notifyObservers, "Light " ++ d.name ++ " turned on") := by
  simp [Device.turnOn, hk]

theorem turnOn_adapter (d : Device) (hk : d.kind = .adapter) :
    d.turnOn = some ({ d with isOn := true },
      ({ d with isOn := true } : Device).notifyObservers, "Old device " ++ d.name ++ " activated") := by
  simp [Device.turnOn, hk]

theorem turnOff_light (d : Device) (hk : d.kind = .light) :
    d.turnOff = some ({ d with isOn := false },
      ({ d with isOn := false } : Device).notifyObservers, "Light " ++ d.name ++ " turned off") := by
  simp [Device.turnOff, hk]

theorem turnOff_adapter (d : Device) (hk : d.kind = .adapter) :
    d.turnOff = some ({ d with isOn := false },
      ({ d with isOn := false } : Device).notifyObservers, "Old device " ++ d.name ++ " deactivated") := by
  simp [Device.turnOff, hk]

theorem lock_door (d : Device) (hk : d.kind = .door) :
    d.lock = some ({ d with isLocked := some true },
      ({ d with isLocked := some true } : Device).notifyObservers, "Door " ++ d.name ++ " locked") := by
  simp [Device.lock, hk]

theorem unlock_door (d : Device) (hk : d.kind = .door) :
    d.unlock = some ({ d with isLocked := some false },
      ({ d with isLocked := some false } : Device).notifyObservers, "Door " ++ d.name ++ " unlocked") := by
  simp [Device.unlock, hk]

theorem setTemperature_sensor (d : Device) (t : Int) (hk : d.kind = .tempSensor) :
    d.setTemperature t = some ({ d with temperature := some t },
      ({ d with temperature := some t } : Device).notifyObservers,
      "Temperature sensor " ++ d.name ++ " updated to " ++ toString t ++ "C") := by
  simp [Device.setTemperature, hk]

theorem device_update_isOn_eq_self (d : Device) (b : Bool) :
    ({ d with isOn := b } : Device) = d ↔ d.isOn = b := by
  cases d
  constructor
  · intro h
    injection h with h1 h2 h3 h4 h5 h6
    exact h3.symm
  · intro h
    simp only at h
    subst h
    rfl

theorem device_update_isLocked_eq_self (d : Device) (x : Option Bool) :
    ({ d with isLocked := x } : Device) = d ↔ d.isLocked = x := by
  cases d
  constructor
  · intro h
    injection h with h1 h2 h3 h4 h5 h6
    exact h4.symm
  · intro h
    simp only at h
    subst h
    rfl

theorem transition_bundle (d d2 : Device) (r : String) (tr : Option TransitionResult)
    (he : tr = some (d2, d2.notifyObservers, r)) (hobs : d2.observers = d.observers) :
    (transEvents tr).map Prod.fst = d.observers ∧
    (∀ o, ((transEvents tr).map Prod.fst).count o = d.observers.count o) ∧
    (∀ p ∈ transEvents tr, transPost tr = some p.2) ∧
    transPost tr = some d2 := by
  subst he
  have h1 : (transEvents (some (d2, d2.notifyObservers, r))).map Prod.fst = d.observers := by
    simp only [transEvents, Option.map_some', Option.getD_some]
    rw [(notifyObservers_spec d2).1, hobs]
  refine ⟨h1, fun o => by rw [h1], ?_, rfl⟩
  intro p hp
  have hp2 : p ∈ d2.notifyObservers := by simpa [transEvents] using hp
  have h2 := (notifyObservers_spec d2).2 p hp2
  simp [transPost, h2]

/-- C4: every mutating device transition (`turnOn`, `turnOff`, `lock`,
`unlock`, `setTemperature`, including the adapter's `turnOn`/`turnOff`)
notifies each currently subscribed observer exactly once per call, with the
post-mutation device state visible to every observer, and the mutation is
exactly the relevant field update.  The events are produced synchronously
within the call, before the result string is handed back. -/
theorem transitions_notify_once_post_state (d : Device) :
    (d.kind = .light ∨ d.kind = .adapter →
      (transEvents d.turnOn).map Prod.fst = d.observers ∧
      (∀ o, ((transEvents d.turnOn).map Prod.fst).count o = d.observers.count o) ∧
      (∀ p ∈ transEvents d.turnOn, transPost d.turnOn = some p.2) ∧
      transPost d.turnOn = some { d with isOn := true }) ∧
    (d.kind = .light ∨ d.kind = .adapter →
      (transEvents d.turnOff).map Prod.fst = d.observers ∧
      (∀ o, ((transEvents d.turnOff).map Prod.fst).count o = d.observers.count o) ∧
      (∀ p ∈ transEvents d.turnOff, transPost d.turnOff = some p.2) ∧
      transPost d.turnOff = some { d with isOn := false }) ∧
    (d.kind = .door →
      (transEvents d.lock).map Prod.fst = d.observers ∧
      (∀ o, ((transEvents d.lock).map Prod.fst).count o = d.observers.count o) ∧
      (∀ p ∈ transEvents d.lock, transPost d.lock = some p.2) ∧
      transPost d.lock = some { d with isLocked := some true }) ∧
    (d.kind = .door →
      (transEvents d.unlock).map Prod.fst = d.observers ∧
      (∀ o, ((transEvents d.unlock).map Prod.fst).count o = d.observers.count o) ∧
      (∀ p ∈ transEvents d.unlock, transPost d.unlock = some p.2) ∧
      transPost d.unlock = some { d with isLocked := some false }) ∧
    (∀ t : Int, d.kind = .tempSensor →
      (transEvents (d.setTemperature t)).map Prod.fst = d.observers ∧
      (∀ o, ((transEvents (d.setTemperature t)).map Prod.fst).count o = d.observers.count o) ∧
      (∀ p ∈ transEvents (d.setTemperature t), transPost (d.setTemperature t) = some p.2) ∧
      transPost (d.setTemperature t) = some { d with temperature := some t }) := by
  refine ⟨?_, ?_, ?_, ?_, ?_⟩
  · intro hk
    rcases hk with hk | hk
    · exact transition_bundle d _ _ _ (turnOn_light d hk) rfl
    · exact transition_bundle d _ _ _ (turnOn_adapter d hk) rfl
  · intro hk
    rcases hk with hk | hk
    · exact transition_bundle d _ _ _ (turnOff_light d hk) rfl
    · exact transition_bundle d _ _ _ (turnOff_adapter d hk) rfl
  · intro hk
    exact transition_bundle d _ _ _ (lock_door d hk) rfl
  · intro hk
    exact transition_bundle d _ _ _ (unlock_door d hk) rfl
  · intro t hk
    exact transition_bundle d _ _ _ (setTemperature_sensor d t hk) rfl

/-- Witness for C4: the notification contract evaluated on a concrete
observed light (`turnOn`) and a concrete observed door (`lock`). -/
theorem transitions_notify_once_post_state_witness :
    ((transEvents ((mkLight "Lamp").addObserver 7).turnOn).map Prod.fst =
        ((mkLight "Lamp").addObserver 7).observers ∧
      (∀ o, ((transEvents ((mkLight "Lamp").addObserver 7).turnOn).map Prod.fst).count o =
        ((mkLight "Lamp").addObserver 7).observers.count o) ∧
      (∀ p ∈ transEvents ((mkLight "Lamp").addObserver 7).turnOn,
        transPost ((mkLight "Lamp").addObserver 7).turnOn = some p.2) ∧
      transPost ((mkLight "Lamp").addObserver 7).turnOn =
        some { (mkLight "Lamp").addObserver 7 with isOn := true }) ∧
    ((transEvents ((mkDoor "Front Door").addObserver 3).lock).map Prod.fst =
        ((mkDoor "Front Door").addObserver 3).observers ∧
      (∀ o, ((transEvents ((mkDoor "Front Door").addObserver 3).lock).map Prod.fst).count o =
        ((mkDoor "Front Door").addObserver 3).observers.count o) ∧
      (∀ p ∈ transEvents ((mkDoor "Front Door").addObserver 3).lock,
        transPost ((mkDoor "Front Door").addObserver 3).lock = some p.2) ∧
      transPost ((mkDoor "Front Door").addObserver 3).lock =
        some { (mkDoor "Front Door").addObserver 3 with isLocked := some true }) :=
  ⟨(transitions_notify_once_post_state ((mkLight "Lamp").addObserver 7)).1 (Or.inl rfl),
   (transitions_notify_once_post_state ((mkDoor "Front Door").addObserver 3)).2.2.1 rfl⟩

/-- C5 counterexample: take the light named "L" already on.  Calling the
forward transition `turnOn` and then its paired inverse `turnOff` leaves
`isOn = false`, which is not the boolean state the device had before the
forward call (`isOn = true`), so the claim fails at this input. -/
theorem forward_then_inverse_counterexample :
    afterOnOff { mkLight "L" with isOn := true } = some (mkLight "L") ∧
    ({ mkLight "L" with isOn := true } : Device).isOn = true ∧
    (afterOnOff { mkLight "L" with isOn := true }).map Device.isOn ≠
      some ({ mkLight "L" with isOn := true } : Device).isOn := by
  refine ⟨rfl, rfl, ?_⟩
  decide

/-- C5 amended: a forward transition followed by its paired inverse always
leaves the toggled boolean at the inverse's target value, every other field
unchanged; hence the device returns to exactly its prior state if and only
if the prior boolean already was that target value (for example,
`turnOn(); turnOff()` restores a light that started off). -/
theorem forward_then_inverse_amended (d : Device) :
    (d.kind = .light ∨ d.kind = .adapter →
      (afterOnOff d = some { d with isOn := false } ∧
        (afterOnOff d = some d ↔ d.isOn = false)) ∧
      (afterOffOn d = some { d with isOn := true } ∧
        (afterOffOn d = some d ↔ d.isOn = true))) ∧
    (d.kind = .door →
      (afterLockUnlock d = some { d with isLocked := some false } ∧
        (afterLockUnlock d = some d ↔ d.isLocked = some false)) ∧
      (afterUnlockLock d = some { d with isLocked := some true } ∧
        (afterUnlockLock d = some d ↔ d.isLocked = some true))) := by
  constructor
  · intro hk
    have h1 : afterOnOff d = some { d with isOn := false } := by
      rcases hk with hk | hk
      · simp [afterOnOff, turnOn_light d hk, turnOff_light { d with isOn := true } hk]
      · simp [afterOnOff, turnOn_adapter d hk, turnOff_adapter { d with isOn := true } hk]
    have h2 : afterOffOn d = some { d with isOn := true } := by
      rcases hk with hk | hk
      · simp [afterOffOn, turnOff_light d hk, turnOn_light { d with isOn := false } hk]
      · simp [afterOffOn, turnOff_adapter d hk, turnOn_adapter { d with isOn := false } hk]
    refine ⟨⟨h1, ?_⟩, ⟨h2, ?_⟩⟩
    · rw [h1, Option.some_inj]
      exact device_update_isOn_eq_self d false
    · rw [h2, Option.some_inj]
      exact device_update_isOn_eq_self d true
  · intro hk
    have h1 : afterLockUnlock d = some { d with isLocked := some false } := by
      simp [afterLockUnlock, lock_door d hk, unlock_door { d with isLocked := some true } hk]
    have h2 : afterUnlockLock d = some { d with isLocked := some true } := by
      simp [afterUnlockLock, unlock_door d hk, lock_door { d with isLocked := some false } hk]
    refine ⟨⟨h1, ?_⟩, ⟨h2, ?_⟩⟩
    · rw [h1, Option.some_inj]
      exact device_update_isLocked_eq_self d (some false)
    · rw [h2, Option.some_inj]
      exact device_update_isLocked_eq_self d (some true)

/-- Witness for the amended C5 theorem, at the freshly constructed front
door (locked by default). -/
theorem forward_then_inverse_amended_witness :
    (afterLockUnlock (mkDoor "Front Door") =
        some { mkDoor "Front Door" with isLocked := some false } ∧
      (afterLockUnlock (mkDoor "Front Door") = some (mkDoor "Front Door") ↔
        (mkDoor "Front Door").isLocked = some false)) ∧
    (afterUnlockLock (mkDoor "Front Door") =
        some { mkDoor "Front Door" with isLocked := some true } ∧
      (afterUnlockLock (mkDoor "Front Door") = some (mkDoor "Front Door") ↔
        (mkDoor "Front Door").isLocked = some true)) :=
  (forward_then_inverse_amended (mkDoor "Front Door")).2 rfl

/-- C6: on a notification from a temperature sensor, a reading strictly
below 18 selects ComfortMode and emits exactly one activation log line;
a reading of 18 or above selects EcoMode and emits no log line.  The
selected strategy is the one a subsequent direct `heat()` call uses. -/
theorem heatingSystem_update_spec (hs : HeatingSystem) (d : Device) (t : Int)
    (hk : d.kind = .tempSensor) (ht : d.temperature = some t) :
    (t < 18 →
      hs.update d = ({ strategy := .ComfortMode },
        ["Heating system activated: Comfort mode: Heating to 22C"]) ∧
      (hs.update d).1.heat = "Comfort mode: Heating to 22C") ∧
    (18 ≤ t →
      hs.update d = ({ strategy := .EcoMode }, []) ∧
      (hs.update d).1.heat = "Eco mode: Heating to 18C") := by
  constructor
  · intro hlt
    have he : hs.update d = ({ strategy := .ComfortMode },
        ["Heating system activated: Comfort mode: Heating to 22C"]) := by
      simp [HeatingSystem.update, hk, ht, hlt, HeatingSystem.setStrategy,
        HeatingSystem.heat, HeatingStrategy.heat]
    exact ⟨he, by rw [he]; rfl⟩
  · intro hge
    have hnlt : ¬ t < 18 := not_lt.mpr hge
    have he : hs.update d = ({ strategy := .EcoMode }, []) := by
      simp [HeatingSystem.update, hk, ht, hnlt, HeatingSystem.setStrategy]
    exact ⟨he, by rw [he]; rfl⟩

/-- Witness for C6: a sensor observation of 16 selects ComfortMode with one
activation log; an observation of 20 selects EcoMode with none. -/
theorem heatingSystem_update_spec_witness :
    (HeatingSystem.new.update { mkTemperatureSensor "T" with temperature := some 16 } =
        ({ strategy := .ComfortMode },
          ["Heating system activated: Comfort mode: Heating to 22C"]) ∧
      (HeatingSystem.new.update
        { mkTemperatureSensor "T" with temperature := some 16 }).1.heat =
        "Comfort mode: Heating to 22C") ∧
    (HeatingSystem.new.update (mkTemperatureSensor "T") =
        ({ strategy := .EcoMode }, []) ∧
      (HeatingSystem.new.update (mkTemperatureSensor "T")).1.heat =
        "Eco mode: Heating to 18C") :=
  ⟨(heatingSystem_update_spec HeatingSystem.new
      { mkTemperatureSensor "T" with temperature := some 16 } 16 rfl rfl).1 (by decide),
   (heatingSystem_update_spec HeatingSystem.new
      (mkTemperatureSensor "T") 20 rfl rfl).2 (by decide)⟩

/-- C10: a notification whose device is not a temperature sensor leaves the
selector's strategy unchanged and emits no log line. -/
theorem heatingSystem_update_ignores_non_sensor (hs : HeatingSystem) (d : Device)
    (hk : d.kind ≠ .tempSensor) : hs.update d = (hs, []) := by
  have hb : (d.kind == DeviceKind.tempSensor) = false := beq_eq_false_iff_ne.mpr hk
  simp [HeatingSystem.update, hb]

/-- Witness for C10: a light notification is ignored, even with ComfortMode
active. -/
theorem heatingSystem_update_ignores_non_sensor_witness :
    HeatingSystem.update { strategy := .ComfortMode } (mkLight "Hall") =
      ({ strategy := .ComfortMode }, []) :=
  heatingSystem_update_ignores_non_sensor { strategy := .ComfortMode } (mkLight "Hall")
    (by decide)

/-- C7: a broadcast (`to = "all"`) leaves the router's user list untouched,
delivers to exactly the registered users whose name differs from the
sender's name — never to the sender — and records the per-recipient lines
followed by exactly one broadcast entry addressed to "all". -/
theorem chatRoom_broadcast_spec (room : HouseChatRoom) (sender : User) (msg : String) :
    (room.sendMessage sender "all" msg).1 = room ∧
    (room.sendMessage sender "all" msg).2.1 =
      (room.users.filter (fun u => u.name != sender.name)).map User.name ∧
    sender.name ∉ (room.sendMessage sender "all" msg).2.1 ∧
    (∀ u ∈ room.users, u.name ≠ sender.name →
      u.name ∈ (room.sendMessage sender "all" msg).2.1) ∧
    (∀ n ∈ (room.sendMessage sender "all" msg).2.1,
      n ≠ sender.name ∧ ∃ u ∈ room.users, u.name = n) ∧
    (room.sendMessage sender "all" msg).2.2 =
      ((room.users.filter (fun u => u.name != sender.name)).map
        (fun u => HouseChatRoom.displayMessage sender.name msg u.name)) ++
        [HouseChatRoom.displayMessage sender.name msg "all"] := by
  have hsend : room.sendMessage sender "all" msg =
      (room, (room.users.filter (fun u => u.name != sender.name)).map User.name,
        ((room.users.filter (fun u => u.name != sender.name)).map
          (fun u => HouseChatRoom.displayMessage sender.name msg u.name)) ++
          [HouseChatRoom.displayMessage sender.name msg "all"]) := rfl
  refine ⟨by rw [hsend], by rw [hsend], ?_, ?_, ?_, by rw [hsend]⟩
  · rw [hsend]
    intro hmem
    simp only [List.mem_map, List.mem_filter, bne_iff_ne] at hmem
    obtain ⟨u, ⟨hu, hne⟩, he⟩ := hmem
    exact hne he
  · intro u hu hne
    rw [hsend]
    simp only [List.mem_map, List.mem_filter, bne_iff_ne]
    exact ⟨u, ⟨hu, hne⟩, rfl⟩
  · intro n hn
    rw [hsend] at hn
    simp only [List.mem_map, List.mem_filter, bne_iff_ne] at hn
    obtain ⟨u, ⟨hu, hne⟩, rfl⟩ := hn
    exact ⟨hne, u, hu, rfl⟩

/-- Witness for C7: broadcasting as John with users {John, Mary, Paul}
delivers to Mary (and not to John), and records the two delivery lines then
exactly one broadcast entry. -/
theorem chatRoom_broadcast_spec_witness :
    "Mary" ∈ (HouseChatRoom.sendMessage
      { users := [{ name := "John" }, { name := "Mary" }, { name := "Paul" }] }
      { name := "John" } "all" "hi").2.1 ∧
    "John" ∉ (HouseChatRoom.sendMessage
      { users := [{ name := "John" }, { name := "Mary" }, { name := "Paul" }] }
      { name := "John" } "all" "hi").2.1 ∧
    (HouseChatRoom.sendMessage
      { users := [{ name := "John" }, { name := "Mary" }, { name := "Paul" }] }
      { name := "John" } "all" "hi").2.2 =
      ((({ users := [{ name := "John" }, { name := "Mary" }, { name := "Paul" }] } :
          HouseChatRoom).users.filter (fun u => u.name != "John")).map
        (fun u => HouseChatRoom.displayMessage "John" "hi" u.name)) ++
        [HouseChatRoom.displayMessage "John" "hi" "all"] :=
  ⟨(chatRoom_broadcast_spec
      { users := [{ name := "John" }, { name := "Mary" }, { name := "Paul" }] }
      { name := "John" } "hi").2.2.2.1 { name := "Mary" } (by decide) (by decide),
   (chatRoom_broadcast_spec
      { users := [{ name := "John" }, { name := "Mary" }, { name := "Paul" }] }
      { name := "John" } "hi").2.2.1,
   (chatRoom_broadcast_spec
      { users := [{ name := "John" }, { name := "Mary" }, { name := "Paul" }] }
      { name := "John" } "hi").2.2.2.2.2⟩

/-- C8: a direct send to a name other than "all" matching no registered
user delivers to nobody, records nothing, and leaves the router unchanged. -/
theorem chatRoom_direct_missing_spec (room : HouseChatRoom) (sender : User)
    (toName msg : String) (hall : toName ≠ "all")
    (hmiss : ∀ u ∈ room.users, u.name ≠ toName) :
    room.sendMessage sender toName msg = (room, [], []) := by
  have h1 : (toName == "all") = false := beq_eq_false_iff_ne.mpr hall
  have h2 : room.users.find? (fun u => u.name == toName) = none := by
    rw [List.find?_eq_none]
    intro u hu
    simp only [beq_iff_eq]
    exact hmiss u hu
  simp [HouseChatRoom.sendMessage, h1, h2]

/-- Witness for C8: sending to the unregistered name "Paul" drops the
message silently. -/
theorem chatRoom_direct_missing_spec_witness :
    HouseChatRoom.sendMessage { users := [{ name := "John" }, { name := "Mary" }] }
      { name := "John" } "Paul" "hello" =
      ({ users := [{ name := "John" }, { name := "Mary" }] }, [], []) :=
  chatRoom_direct_missing_spec { users := [{ name := "John" }, { name := "Mary" }] }
    { name := "John" } "Paul" "hello" (by decide) (by decide)

theorem nodup_append_singleton {α : Type} {l : List α} {a : α}
    (hl : l.Nodup) (ha : a ∉ l) : (l ++ [a]).Nodup := by
  rw [List.nodup_append]
  refine ⟨hl, List.nodup_singleton a, ?_⟩
  intro x hx hmem
  rw [List.mem_singleton] at hmem
  subst hmem
  exact ha hx

theorem find?_eq_filter_head? {α : Type} (p : α → Bool) (l : List α) :
    l.find? p = (l.filter p).head? := by
  induction l with
  | nil => rfl
  | cons a l ih =>
    cases hp : p a
    · rw [List.find?_cons_of_neg _ (by simp [hp]), List.filter_cons_of_neg (by simp [hp]), ih]
    · rw [List.find?_cons_of_pos _ hp, List.filter_cons_of_pos hp, List.head?_cons]

/-- C9 counterexample: starting from a registry whose device names are
unique, `addDevice` with an already-present name yields duplicate device
names, so not every operation preserves the uniqueness invariant. -/
theorem registry_uniqueness_counterexample :
    (House.new.addDevice (mkLight "A")).namesUnique ∧
    ¬ ((House.new.addDevice (mkLight "A")).addDevice (mkDoor "A")).namesUnique := by
  constructor
  · constructor <;> decide
  · intro hq
    exact absurd hq.1 (by decide)

/-- C9 amended: `addDevice`/`addUser` append unconditionally and enforce
nothing; name uniqueness is preserved exactly when the added name is not
already present.  Lookups are deterministic: `findDevice`/`findUser` return
the first match in insertion order. -/
theorem registry_amended_spec (h : House) (d : Device) (u : User) (n : String) :
    (h.namesUnique → d.name ∉ h.devices.map Device.name →
      u.name ∉ h.users.map User.name →
      ((h.addDevice d).namesUnique ∧ (h.addUser u).namesUnique)) ∧
    h.findDevice n = (h.devices.filter (fun dev => dev.name == n)).head? ∧
    h.findUser n = (h.users.filter (fun us => us.name == n)).head? := by
  refine ⟨?_, find?_eq_filter_head? _ _, find?_eq_filter_head? _ _⟩
  intro hq hd hu2
  constructor
  · exact ⟨by simpa [House.addDevice] using nodup_append_singleton hq.1 hd, hq.2⟩
  · exact ⟨hq.1, by simpa [House.addUser] using nodup_append_singleton hq.2 hu2⟩

/-- Witness for the amended C9 theorem, at a concrete registry holding the
device "A": adding the fresh names "B" and "John" preserves uniqueness, and
lookup is first-match. -/
theorem registry_amended_spec_witness :
    (((House.new.addDevice (mkLight "A")).addDevice (mkDoor "B")).namesUnique ∧
      ((House.new.addDevice (mkLight "A")).addUser { name := "John" }).namesUnique) ∧
    (House.new.addDevice (mkLight "A")).findDevice "A" =
      ((House.new.addDevice (mkLight "A")).devices.filter
        (fun dev => dev.name == "A")).head? ∧
    (House.new.addDevice (mkLight "A")).findUser "John" =
      ((House.new.addDevice (mkLight "A")).users.filter
        (fun us => us.name == "John")).head? :=
  ⟨(registry_amended_spec (House.new.addDevice (mkLight "A")) (mkDoor "B")
      { name := "John" } "A").1 (by constructor <;> decide) (by decide) (by decide),
   (registry_amended_spec (House.new.addDevice (mkLight "A")) (mkDoor "B")
      { name := "John" } "A").2.1,
   (registry_amended_spec (House.new.addDevice (mkLight "A")) (mkDoor "B")
      { name := "John" } "John").2.2⟩

/-- C1: for the authorization wrapper around a turn-off-light command, if
the registry lookup of "Front Door" yields a device with `isLocked = false`
the wrapper returns the fixed warning and leaves the house (hence the
target light) completely unchanged, never invoking the inner command; if
"Front Door" is absent or locked the wrapper delegates to the inner
command, and when the target index holds a light the light is switched
off. -/
theorem securityProxy_gate_spec (h : House) (i : Nat) :
    (∀ fd, h.findDevice "Front Door" = some fd → fd.isLocked = some false →
      (Command.SecurityProxy (Command.LightOffCommand i)).executeRun h =
        some (h, "Security Warning: Cannot turn off lights while front door is unlocked")) ∧
    (h.findDevice "Front Door" = none →
      (Command.SecurityProxy (Command.LightOffCommand i)).executeRun h =
        (Command.LightOffCommand i).executeRun h) ∧
    (∀ fd, h.findDevice "Front Door" = some fd → fd.isLocked = some true →
      (Command.SecurityProxy (Command.LightOffCommand i)).executeRun h =
        (Command.LightOffCommand i).executeRun h) ∧
    (∀ d, h.devices[i]? = some d → d.kind = .light →
      (Command.LightOffCommand i).executeRun h =
        some ({ h with devices := h.devices.set i { d with isOn := false } },
          "Light " ++ d.name ++ " turned off")) := by
  refine ⟨?_, ?_, ?_, ?_⟩
  · intro fd hfd hlock
    simp [Command.executeRun, Command.isLightOffCommand, hfd, hlock, jsFalsy]
  · intro hfd
    simp [Command.executeRun, Command.isLightOffCommand, hfd]
  · intro fd hfd hlock
    simp [Command.executeRun, Command.isLightOffCommand, hfd, hlock, jsFalsy]
  · intro d hd hk
    simp [Command.executeRun, House.runDeviceMethod, hd, turnOff_light d hk]

/-- Witness for C1: with the front door unlocked the wrapped light-off is
refused and the house unchanged; with it locked the wrapper delegates and
the living-room light goes off. -/
theorem securityProxy_gate_spec_witness :
    (Command.SecurityProxy (Command.LightOffCommand 0)).executeRun
      { House.new with devices := [{ mkLight "Living Room Light" with isOn := true },
        { mkDoor "Front Door" with isLocked := some false }] } =
      some ({ House.new with devices := [{ mkLight "Living Room Light" with isOn := true },
        { mkDoor "Front Door" with isLocked := some false }] },
        "Security Warning: Cannot turn off lights while front door is unlocked") ∧
    (Command.SecurityProxy (Command.LightOffCommand 0)).executeRun
      { House.new with devices := [{ mkLight "Living Room Light" with isOn := true },
        mkDoor "Front Door"] } =
      (Command.LightOffCommand 0).executeRun
        { House.new with devices := [{ mkLight "Living Room Light" with isOn := true },
          mkDoor "Front Door"] } ∧
    (Command.LightOffCommand 0).executeRun
      { House.new with devices := [{ mkLight "Living Room Light" with isOn := true },
        mkDoor "Front Door"] } =
      some ({ House.new with devices :=
          ([{ mkLight "Living Room Light" with isOn := true },
            mkDoor "Front Door"].set 0
            { { mkLight "Living Room Light" with isOn := true } with isOn := false }) },
        "Light " ++ ({ mkLight "Living Room Light" with isOn := true } : Device).name ++
          " turned off") :=
  ⟨(securityProxy_gate_spec _ 0).1 _ rfl rfl,
   (securityProxy_gate_spec _ 0).2.2.1 _ rfl rfl,
   (securityProxy_gate_spec _ 0).2.2.2 _ rfl rfl⟩

/-- C3 (code bug evaluation): `SecurityProxy` and `LogCommand` define no
`undo` method and do not extend `Command`, so `undo()` on a wrapper throws
a TypeError instead of delegating to the inner command's `undo()`; the
invoker's `undo` on a history holding a wrapped refusal pops it but the
inner inverse transition never runs and the house is untouched. -/
theorem wrapper_undo_throws (c : Command) (h : House) :
    (Command.SecurityProxy c).undoRun h = none ∧
    (Command.LogCommand c).undoRun h = none ∧
    (∀ rc : RemoteControl, rc.history = [Command.SecurityProxy c] →
      rc.undo h = ({ rc with history := [] }, h, none)) := by
  refine ⟨rfl, rfl, ?_⟩
  intro rc hh
  simp [RemoteControl.undo, hh, Command.undoRun]

/-- Witness for C3: undoing a recorded wrapped light-off refusal pops it
and throws, leaving the house unchanged. -/
theorem wrapper_undo_throws_witness :
    RemoteControl.undo
      { commands := [], history := [Command.SecurityProxy (Command.LightOffCommand 0)] }
      House.new =
      ({ commands := [], history := [] }, House.new, none) :=
  (wrapper_undo_throws (Command.LightOffCommand 0) House.new).2.2
    { commands := [], history := [Command.SecurityProxy (Command.LightOffCommand 0)] } rfl

theorem pressButton_of_exec (rc : RemoteControl) (h : House) (c : Command)
    (h2 : House) (r : String) (he : c.executeRun h = some (h2, r)) :
    rc.pressButton h c = ({ rc with history := rc.history ++ [c] }, h2, some r) := by
  simp [RemoteControl.pressButton, he]

theorem pressAll_spec (cs : List Command) : ∀ (rc : RemoteControl) (h : House),
    execsOk h cs = true →
    RemoteControl.pressAll rc h cs =
      ({ rc with history := rc.history ++ cs }, execHouse h cs) := by
  induction cs with
  | nil =>
    intro rc h _
    simp [RemoteControl.pressAll, execHouse]
  | cons c cs ih =>
    intro rc h hok
    cases hx : c.executeRun h with
    | none =>
      rw [execsOk, hx] at hok
      exact absurd hok (by simp)
    | some pr =>
      obtain ⟨h2, r⟩ := pr
      have hok2 : execsOk h2 cs = true := by
        rw [execsOk, hx] at hok
        exact hok
      rw [RemoteControl.pressAll]
      rw [pressButton_of_exec rc h c h2 r hx]
      rw [ih { rc with history := rc.history ++ [c] } h2 hok2]
      rw [execHouse, hx]
      simp

theorem undo_concat (rc : RemoteControl) (h : House) (pre : List Command) (c : Command)
    (hh : rc.history = pre ++ [c]) :
    rc.undo h = ({ rc with history := pre }, undoStepHouse h c,
      (c.undoRun h).map Prod.snd) := by
  cases hu : c.undoRun h with
  | none =>
    simp [RemoteControl.undo, hh, List.getLast?_concat, List.dropLast_concat,
      undoStepHouse, hu]
  | some pr =>
    obtain ⟨h2, r⟩ := pr
    simp [RemoteControl.undo, hh, List.getLast?_concat, List.dropLast_concat,
      undoStepHouse, hu]

theorem undoTimes_lifo : ∀ (n : Nat) (rc : RemoteControl) (h : House)
    (pre cs : List Command), rc.history = pre ++ cs → cs.length = n →
    RemoteControl.undoTimes rc h n =
      ({ rc with history := pre }, cs.reverse.foldl undoStepHouse h, cs.reverse) := by
  intro n
  induction n with
  | zero =>
    intro rc h pre cs hh hlen
    obtain rfl : cs = [] := List.length_eq_zero.mp hlen
    simp only [List.append_nil] at hh
    subst hh
    rfl
  | succ n ih =>
    intro rc h pre cs hh hlen
    rcases List.eq_nil_or_concat cs with rfl | ⟨ds, d, rfl⟩
    · exact absurd hlen (by simp)
    · have hds : ds.length = n := by simpa using hlen
      have hh2 : rc.history = (pre ++ ds) ++ [d] := by
        rw [hh, List.concat_eq_append, ← List.append_assoc]
      have hlast : rc.history.getLast? = some d := by
        rw [hh2]
        exact List.getLast?_concat _
      simp only [RemoteControl.undoTimes, hlast, Option.toList_some,
        undo_concat rc h (pre ++ ds) d hh2]
      rw [ih { rc with history := pre ++ ds } (undoStepHouse h d) pre ds rfl hds]
      simp [List.reverse_append]

/-- C2: the invoker executes the pressed command, pushes it unconditionally
onto the history (whatever the outcome, a refusal included) and returns the
execute result; a run of N presses followed by N `undo()` calls pops and
undoes the pushed commands in strict last-in-first-out order, restoring the
prior history; `undo()` on an empty history returns the fixed
"No commands to undo" result and mutates neither the history nor the
house. -/
theorem invoker_spec :
    (∀ (rc : RemoteControl) (h : House) (c : Command) (h2 : House) (r : String),
      c.executeRun h = some (h2, r) →
      rc.pressButton h c = ({ rc with history := rc.history ++ [c] }, h2, some r)) ∧
    (∀ (rc : RemoteControl) (h : House) (cs : List Command),
      execsOk h cs = true →
      RemoteControl.pressAll rc h cs =
        ({ rc with history := rc.history ++ cs }, execHouse h cs)) ∧
    (∀ (rc : RemoteControl) (h : House) (pre cs : List Command),
      rc.history = pre ++ cs →
      RemoteControl.undoTimes rc h cs.length =
        ({ rc with history := pre }, cs.reverse.foldl undoStepHouse h, cs.reverse)) ∧
    (∀ (rc : RemoteControl) (h : House), rc.history = [] →
      rc.undo h = (rc, h, some "No commands to undo")) :=
  ⟨pressButton_of_exec,
   fun rc h cs => pressAll_spec cs rc h,
   fun rc h pre cs hh => undoTimes_lifo cs.length rc h pre cs hh rfl,
   fun rc h hh => by simp [RemoteControl.undo, hh]⟩

/-- Witness for C2: a refused wrapped light-off is still pushed and its
warning returned; pressing two commands then undoing twice pops them in
last-in-first-out order; an undo on a fresh remote mutates nothing. -/
theorem invoker_spec_witness :
    RemoteControl.new.pressButton
      { House.new with devices := [{ mkLight "Living Room Light" with isOn := true },
        { mkDoor "Front Door" with isLocked := some false }] }
      (Command.SecurityProxy (Command.LightOffCommand 0)) =
      ({ RemoteControl.new with history :=
          RemoteControl.new.history ++ [Command.SecurityProxy (Command.LightOffCommand 0)] },
        { House.new with devices := [{ mkLight "Living Room Light" with isOn := true },
          { mkDoor "Front Door" with isLocked := some false }] },
        some "Security Warning: Cannot turn off lights while front door is unlocked") ∧
    RemoteControl.new.pressAll
      { House.new with devices := [mkLight "A", mkDoor "D"] }
      [Command.LightOnCommand 0, Command.DoorLockCommand 1] =
      ({ RemoteControl.new with history := RemoteControl.new.history ++
          [Command.LightOnCommand 0, Command.DoorLockCommand 1] },
        execHouse { House.new with devices := [mkLight "A", mkDoor "D"] }
          [Command.LightOnCommand 0, Command.DoorLockCommand 1]) ∧
    RemoteControl.undoTimes
      { commands := [], history := [Command.LightOnCommand 0, Command.DoorLockCommand 1] }
      (execHouse { House.new with devices := [mkLight "A", mkDoor "D"] }
        [Command.LightOnCommand 0, Command.DoorLockCommand 1])
      [Command.LightOnCommand 0, Command.DoorLockCommand 1].length =
      ({ commands := [], history := ([] : List Command) },
        [Command.LightOnCommand 0, Command.DoorLockCommand 1].reverse.foldl undoStepHouse
          (execHouse { House.new with devices := [mkLight "A", mkDoor "D"] }
            [Command.LightOnCommand 0, Command.DoorLockCommand 1]),
        [Command.LightOnCommand 0, Command.DoorLockCommand 1].reverse) ∧
    RemoteControl.new.undo { House.new with devices := [mkLight "A", mkDoor "D"] } =
      (RemoteControl.new, { House.new with devices := [mkLight "A", mkDoor "D"] },
        some "No commands to undo") :=
  ⟨invoker_spec.1 RemoteControl.new
      { House.new with devices := [{ mkLight "Living Room Light" with isOn := true },
        { mkDoor "Front Door" with isLocked := some false }] }
      (Command.SecurityProxy (Command.LightOffCommand 0))
      { House.new with devices := [{ mkLight "Living Room Light" with isOn := true },
        { mkDoor "Front Door" with isLocked := some false }] }
      "Security Warning: Cannot turn off lights while front door is unlocked" rfl,
   invoker_spec.2.1 RemoteControl.new
      { House.new with devices := [mkLight "A", mkDoor "D"] }
      [Command.LightOnCommand 0, Command.DoorLockCommand 1] rfl,
   invoker_spec.2.2.1
      { commands := [], history := [Command.LightOnCommand 0, Command.DoorLockCommand 1] }
      (execHouse { House.new with devices := [mkLight "A", mkDoor "D"] }
        [Command.LightOnCommand 0, Command.DoorLockCommand 1])
      [] [Command.LightOnCommand 0, Command.DoorLockCommand 1] rfl,
   invoker_spec.2.2.2 RemoteControl.new
      { House.new with devices := [mkLight "A", mkDoor "D"] } rfl⟩
